import Mathlib

/-!
Shallow embedding of the Animator core engine (src/src/core/lib.rs) and
proofs about its scene-graph, evaluation and rendering operations.

Modelling conventions:
* `f64` values are modelled by `F64`: either NaN or a finite rational.
  The engine performs no arithmetic on times or property values — they are
  only stored and passed through — so no further float structure is needed.
* `JsValue` is modelled as a small inductive of JavaScript values; plain
  objects are association lists of fields in insertion order, which is the
  order `js_sys::Reflect::set` produces on a fresh `js_sys::Object`.
* Methods taking `&mut self` or `&self` are modelled in state-passing
  style, returning the result paired with the (possibly updated) engine.
* The browser and GPU environment that `render_frame` talks to (window,
  document, canvas lookup, surface creation, texture acquisition) is an
  external collaborator; it is modelled by a `Host` record carrying the
  outcome of each fallible external step, and `render_frame` consumes
  those outcomes in the order the source performs the calls.
* Fallible Rust functions returning `Result<T, JsValue>` are modelled as
  `Except String T`, since every error value the source constructs is a
  string message.
-/

/-- Model of an IEEE double as used by the engine: NaN or a finite rational
value. The engine only stores and forwards these values. -/
inductive F64 where
  | nan : F64
  | num : ℚ → F64
  deriving DecidableEq

/-- Model of a JavaScript value as exchanged over the wasm boundary: null,
booleans, numbers, strings, arrays, and plain objects as ordered field
lists. -/
inductive JsValue where
  | null : JsValue
  | boolean : Bool → JsValue
  | num : F64 → JsValue
  | str : String → JsValue
  | arr : List JsValue → JsValue
  | obj : List (String × JsValue) → JsValue

/-- `Point2D` from the source: an `{x, y}` pair of floats (f32 in the
source; modelled with the same float value model). -/
structure Point2D where
  x : F64
  y : F64

/-- The source's error enum `AnimatorError`. Note it has exactly these four
variants: there is no DuplicateId, InvalidInput or BackendNotReady variant
in the code. -/
inductive AnimatorError where
  | nodeNotFound : String → AnimatorError
  | invalidProperty : String → AnimatorError
  | renderError : String → AnimatorError
  | evaluationError : String → AnimatorError

/-- `SceneNode` from the source: id, display name, node type tag, and an
opaque `JsValue` property blob. -/
structure SceneNode where
  id : String
  name : String
  node_type : String
  properties : JsValue

/-- `SceneNode::new`: constructs a node with `properties` set to
`JsValue::NULL`. -/
def SceneNode.new (id : String) (name : String) (node_type : String) : SceneNode :=
  { id := id, name := name, node_type := node_type, properties := JsValue.null }

/-- `RenderContext` from the source: time, frame rate, and a u32 width and
height (modelled as naturals; on the wasm32 target they are below 2^32). -/
structure RenderContext where
  time : F64
  frame_rate : F64
  width : ℕ
  height : ℕ

/-- Opaque handle standing for a `wgpu::Device`. -/
structure GpuDevice where
  handle : ℕ

/-- Opaque handle standing for a `wgpu::Queue`. -/
structure GpuQueue where
  handle : ℕ

/-- Opaque handle standing for a `wgpu::RenderPipeline`. -/
structure RenderPipeline where
  handle : ℕ

/-- Opaque handle standing for a `wgpu::ShaderModule`. -/
structure ShaderModule where
  handle : ℕ

/-- `AnimatorEngine` state: the scene graph is a flat `Vec<SceneNode>`, and
the GPU resources are `Option`s that `initialize` would fill in. -/
structure AnimatorEngine where
  scene_graph : List SceneNode
  gpu_device : Option GpuDevice
  gpu_queue : Option GpuQueue
  render_pipeline : Option RenderPipeline
  shader_modules : List (String × ShaderModule)

/-- `AnimatorEngine::new`: empty scene graph, no GPU resources. -/
def AnimatorEngine.new : AnimatorEngine :=
  { scene_graph := [], gpu_device := none, gpu_queue := none,
    render_pipeline := none, shader_modules := [] }

/-- The environment `render_frame` interacts with, one field per fallible
external step, in source order: the global window, its document, the
canvas element lookup, the `dyn_into` canvas cast, surface creation, and
surface texture acquisition. -/
structure Host where
  window : Option Unit
  document : Option Unit
  canvas_element : Option Unit
  canvas_is_html_canvas : Bool
  create_surface : Except String Unit
  current_texture : Except String Unit

/-- Rust `Option::ok_or` specialised to string errors. -/
def ok_or {α : Type} (o : Option α) (msg : String) : Except String α :=
  match o with
  | some a => Except.ok a
  | none => Except.error msg

/-- Rust `Result::map_err` specialised to string errors. -/
def map_err {α : Type} (r : Except String α) (f : String → String) : Except String α :=
  match r with
  | Except.ok a => Except.ok a
  | Except.error e => Except.error (f e)

/-- `js_sys::Reflect::set` on a plain object: appends the field (all keys
the engine writes are fresh). On a non-object receiver it errors, as
`Reflect::set` does. -/
def reflect_set (target : JsValue) (key : String) (value : JsValue) : Except String JsValue :=
  match target with
  | JsValue.obj fields => Except.ok (JsValue.obj (fields ++ [(key, value)]))
  | _ => Except.error ("Reflect.set called on non-object")

/-- `serde_wasm_bindgen::to_value` on one `SceneNode`: a plain object with
the four fields in declaration order; the `properties` JsValue passes
through. -/
def serialize_scene_node (n : SceneNode) : JsValue :=
  JsValue.obj
    [("id", JsValue.str n.id),
     ("name", JsValue.str n.name),
     ("node_type", JsValue.str n.node_type),
     ("properties", n.properties)]

/-- `serde_wasm_bindgen::to_value` on a `Vec<SceneNode>`: a JS array of the
serialized nodes. Serialization of this plain data type cannot fail. -/
def serde_to_value (ns : List SceneNode) : Except String JsValue :=
  Except.ok (JsValue.arr (ns.map serialize_scene_node))

/-- `AnimatorEngine::add_node`: logs and unconditionally pushes the node
onto the scene graph, returning `Ok(())`. No duplicate-id check is
performed. -/
def AnimatorEngine.add_node (self : AnimatorEngine) (node : SceneNode) :
    (Except String Unit) × AnimatorEngine :=
  (Except.ok (), { self with scene_graph := self.scene_graph ++ [node] })

/-- `AnimatorEngine::evaluate_properties`: the source's body is a TODO
stub — it returns `properties.clone()` unchanged for every time, performing
no curve evaluation. -/
def AnimatorEngine.evaluate_properties (self : AnimatorEngine) (properties : JsValue)
    (_time : F64) : (Except String JsValue) × AnimatorEngine :=
  (Except.ok properties, self)

/-- `AnimatorEngine::evaluate_node`: rebuilds the node with its properties
run through `evaluate_properties`. -/
def AnimatorEngine.evaluate_node (self : AnimatorEngine) (node : SceneNode)
    (time : F64) : (Except String SceneNode) × AnimatorEngine :=
  match AnimatorEngine.evaluate_properties self node.properties time with
  | (Except.error e, s) => (Except.error e, s)
  | (Except.ok evaluated_properties, s) =>
    (Except.ok { id := node.id, name := node.name, node_type := node.node_type,
                 properties := evaluated_properties }, s)

/-- The `for node in &self.scene_graph` loop inside
`AnimatorEngine::evaluate_scene`: evaluates each node in order, pushing the
results, with `?` propagating the first error. -/
def evaluate_nodes_loop (self : AnimatorEngine) (nodes : List SceneNode) (time : F64) :
    (Except String (List SceneNode)) × AnimatorEngine :=
  match nodes with
  | [] => (Except.ok [], self)
  | node :: rest =>
    match AnimatorEngine.evaluate_node self node time with
    | (Except.error e, s) => (Except.error e, s)
    | (Except.ok evaluated_node, s) =>
      match evaluate_nodes_loop s rest time with
      | (Except.error e, s2) => (Except.error e, s2)
      | (Except.ok evaluated_rest, s2) =>
        (Except.ok (evaluated_node :: evaluated_rest), s2)

/-- `AnimatorEngine::evaluate_scene`: evaluates every node of the stored
scene graph at `time`, then builds the result object with fields `time`,
`node_count` (the node list length cast to u32) and `nodes` (the serialized
evaluated nodes). Performs no NaN check on `time`. -/
def AnimatorEngine.evaluate_scene (self : AnimatorEngine) (time : F64) :
    (Except String JsValue) × AnimatorEngine :=
  match evaluate_nodes_loop self self.scene_graph time with
  | (Except.error e, s) => (Except.error e, s)
  | (Except.ok evaluated_nodes, s) =>
    ((do
      let result0 := JsValue.obj []
      let result1 ← reflect_set result0 ("time") (JsValue.num time)
      let result2 ← reflect_set result1 ("node_count")
        (JsValue.num (F64.num ((evaluated_nodes.length % 2 ^ 32 : ℕ) : ℚ)))
      let nodes_value ← serde_to_value evaluated_nodes
      let result3 ← reflect_set result2 ("nodes") nodes_value
      pure result3 : Except String JsValue), s)

/-- `AnimatorEngine::render_frame`: checks the three GPU resources in order
(failing with the corresponding "not initialized" message), performs the
external window/document/canvas/surface/texture steps, encodes and submits
the frame (infallible in the source), and returns the frame metadata object
`{width, height, timestamp, rendered}` built from the supplied context.
Takes `&self`: the engine state is not modified. -/
def AnimatorEngine.render_frame (self : AnimatorEngine) (host : Host)
    (context : RenderContext) : Except String JsValue := do
  let _device ← ok_or self.gpu_device ("GPU device not initialized")
  let _queue ← ok_or self.gpu_queue ("GPU queue not initialized")
  let _pipeline ← ok_or self.render_pipeline ("Render pipeline not initialized")
  let _window ← ok_or host.window ("No global `window` exists")
  let _document ← ok_or host.document ("Should have a document on window")
  let _element ← ok_or host.canvas_element ("No canvas element found")
  let _canvas ← (if host.canvas_is_html_canvas then Except.ok ()
      else Except.error ("Canvas element is not an HtmlCanvasElement") : Except String Unit)
  let _surface ← map_err host.create_surface
      (fun e => ("Failed to create surface: " ++ e))
  let _output ← map_err host.current_texture
      (fun e => ("Failed to get surface texture: " ++ e))
  let frame_data := JsValue.obj []
  let frame_data1 ← reflect_set frame_data ("width")
      (JsValue.num (F64.num (context.width : ℚ)))
  let frame_data2 ← reflect_set frame_data1 ("height")
      (JsValue.num (F64.num (context.height : ℚ)))
  let frame_data3 ← reflect_set frame_data2 ("timestamp") (JsValue.num context.time)
  let frame_data4 ← reflect_set frame_data3 ("rendered") (JsValue.boolean true)
  pure frame_data4

/-- Concrete property blob describing an animation curve with keyframes
(time 0, value 0) and (time 10, value 100), linear interpolation, in the
JSON shape the scene-graph property map would carry. -/
def linear_curve_props : JsValue :=
  JsValue.obj
    [("position", JsValue.obj
      [("keyframes", JsValue.arr
        [JsValue.obj
          [("time", JsValue.num (F64.num 0)),
           ("value", JsValue.num (F64.num 0)),
           ("interpolation", JsValue.str ("linear"))],
         JsValue.obj
          [("time", JsValue.num (F64.num 10)),
           ("value", JsValue.num (F64.num 100)),
           ("interpolation", JsValue.str ("linear"))]])])]

/-- Concrete property blob describing an animation curve with keyframes
(time 0, value 0) and (time 1, value 10). -/
def clamp_curve_props : JsValue :=
  JsValue.obj
    [("opacity", JsValue.obj
      [("keyframes", JsValue.arr
        [JsValue.obj
          [("time", JsValue.num (F64.num 0)),
           ("value", JsValue.num (F64.num 0)),
           ("interpolation", JsValue.str ("linear"))],
         JsValue.obj
          [("time", JsValue.num (F64.num 1)),
           ("value", JsValue.num (F64.num 10)),
           ("interpolation", JsValue.str ("linear"))]])])]

/-- First node with id `a`. -/
def node_a1 : SceneNode :=
  { id := "a", name := "first", node_type := "rectangle", properties := JsValue.null }

/-- Second, distinct node reusing the id `a`. -/
def node_a2 : SceneNode :=
  { id := "a", name := "second", node_type := "circle", properties := JsValue.null }

/-- Engine holding exactly one node. -/
def engine_one : AnimatorEngine :=
  (AnimatorEngine.new.add_node node_a1).2

/-- Engine in the initialized state: GPU device, queue and pipeline present. -/
def engine_init : AnimatorEngine :=
  { scene_graph := [node_a1], gpu_device := some { handle := 0 },
    gpu_queue := some { handle := 0 }, render_pipeline := some { handle := 0 },
    shader_modules := [] }

/-- Host in which every external step succeeds. -/
def host_ok : Host :=
  { window := some (), document := some (), canvas_element := some (),
    canvas_is_html_canvas := true, create_surface := Except.ok (),
    current_texture := Except.ok () }

/-- Concrete render context: time 2, 60 fps, 640 by 480. -/
def ctx0 : RenderContext :=
  { time := F64.num 2, frame_rate := F64.num 60, width := 640, height := 480 }

/-- Evaluating one node is the identity on the node and on the engine. -/
theorem evaluate_node_id (s : AnimatorEngine) (n : SceneNode) (t : F64) :
    AnimatorEngine.evaluate_node s n t = (Except.ok n, s) := rfl

/-- The evaluation loop returns the node list unchanged and preserves the
engine state. -/
theorem evaluate_nodes_loop_id (s : AnimatorEngine) (ns : List SceneNode) (t : F64) :
    evaluate_nodes_loop s ns t = (Except.ok ns, s) := by
  induction ns generalizing s with
  | nil => rfl
  | cons n rest ih => simp [evaluate_nodes_loop, evaluate_node_id, ih]

/-- Closed form of `evaluate_scene`: it always succeeds, returns the result
object built from the stored scene graph, and leaves the engine unchanged. -/
theorem evaluate_scene_closed_form (e : AnimatorEngine) (t : F64) :
    AnimatorEngine.evaluate_scene e t =
      (Except.ok (JsValue.obj
        [("time", JsValue.num t),
         ("node_count", JsValue.num (F64.num ((e.scene_graph.length % 2 ^ 32 : ℕ) : ℚ))),
         ("nodes", JsValue.arr (e.scene_graph.map serialize_scene_node))]), e) := by
  unfold AnimatorEngine.evaluate_scene
  rw [evaluate_nodes_loop_id]
  rfl

/-- C1: the claim says a linear curve with keyframes (0,0) and (10,100)
resolves to 50 at time 5; the code's `evaluate_properties` is a stub that
returns the property blob unchanged — the raw curve description, which is
not the interpolated value 50. -/
theorem c1_linear_interpolation_not_implemented :
    AnimatorEngine.evaluate_properties AnimatorEngine.new linear_curve_props (F64.num 5) =
      (Except.ok linear_curve_props, AnimatorEngine.new) ∧
    linear_curve_props ≠ JsValue.num (F64.num 50) :=
  ⟨rfl, fun h => JsValue.noConfusion h⟩

/-- C2: the claim says evaluation clamps to the boundary keyframe value
outside the keyframe range; the code's `evaluate_properties` returns the
curve blob unchanged at time -5 and at time 5 — not the boundary values 0
and 10. -/
theorem c2_boundary_clamp_not_implemented :
    AnimatorEngine.evaluate_properties AnimatorEngine.new clamp_curve_props (F64.num (-5)) =
      (Except.ok clamp_curve_props, AnimatorEngine.new) ∧
    AnimatorEngine.evaluate_properties AnimatorEngine.new clamp_curve_props (F64.num 5) =
      (Except.ok clamp_curve_props, AnimatorEngine.new) ∧
    clamp_curve_props ≠ JsValue.num (F64.num 0) ∧
    clamp_curve_props ≠ JsValue.num (F64.num 10) :=
  ⟨rfl, rfl, fun h => JsValue.noConfusion h, fun h => JsValue.noConfusion h⟩

/-- C3: the claim says inserting a node whose id is already present fails
with DuplicateId and leaves the node count unchanged; the code's `add_node`
appends unconditionally: on an engine already holding a node with id `a`,
adding a second node with id `a` returns Ok and the count goes from 1
to 2. -/
theorem c3_duplicate_id_not_rejected :
    node_a2.id = node_a1.id ∧
    engine_one.scene_graph.length = 1 ∧
    (engine_one.add_node node_a2).1 = Except.ok () ∧
    (engine_one.add_node node_a2).2.scene_graph.length = 2 :=
  ⟨rfl, rfl, rfl, rfl⟩

/-- C4: the claim says `evaluate_scene` fails with InvalidInput when the
query time is NaN; the code performs no NaN check and returns Ok, storing
the NaN time in the result object. -/
theorem c4_nan_time_accepted :
    (AnimatorEngine.evaluate_scene engine_one F64.nan).1 =
      Except.ok (JsValue.obj
        [("time", JsValue.num F64.nan),
         ("node_count", JsValue.num (F64.num 1)),
         ("nodes", JsValue.arr [serialize_scene_node node_a1])]) := by
  rw [evaluate_scene_closed_form]
  norm_num [engine_one, AnimatorEngine.add_node, AnimatorEngine.new]

/-- C5: on every engine whose GPU device is absent (as it is from
construction until `initialize` completes), `render_frame` fails with the
backend-not-ready error, which the code reports as the string
`GPU device not initialized`. -/
theorem c5_render_frame_gated_when_uninitialized (e : AnimatorEngine) (host : Host)
    (context : RenderContext) (h : e.gpu_device = none) :
    AnimatorEngine.render_frame e host context =
      Except.error ("GPU device not initialized") := by
  unfold AnimatorEngine.render_frame
  rw [h]
  rfl

/-- Witness for C5: the freshly constructed engine is uninitialized and
`render_frame` on it fails with the backend-not-ready error. -/
theorem c5_render_frame_gated_witness :
    AnimatorEngine.new.gpu_device = none ∧
    AnimatorEngine.render_frame AnimatorEngine.new host_ok ctx0 =
      Except.error ("GPU device not initialized") :=
  ⟨rfl, c5_render_frame_gated_when_uninitialized AnimatorEngine.new host_ok ctx0 rfl⟩

/-- C6: on every initialized engine, when every external step succeeds,
`render_frame` returns the metadata object whose width and height are the
context's width and height, whose timestamp is the context's time, and
whose rendered flag is true. -/
theorem c6_render_frame_metadata (e : AnimatorEngine) (host : Host)
    (context : RenderContext) (d : GpuDevice) (q : GpuQueue) (p : RenderPipeline)
    (hd : e.gpu_device = some d) (hq : e.gpu_queue = some q)
    (hp : e.render_pipeline = some p) (hw : host.window = some ())
    (hdoc : host.document = some ()) (hc : host.canvas_element = some ())
    (hh : host.canvas_is_html_canvas = true)
    (hs : host.create_surface = Except.ok ())
    (ht : host.current_texture = Except.ok ()) :
    AnimatorEngine.render_frame e host context =
      Except.ok (JsValue.obj
        [("width", JsValue.num (F64.num (context.width : ℚ))),
         ("height", JsValue.num (F64.num (context.height : ℚ))),
         ("timestamp", JsValue.num context.time),
         ("rendered", JsValue.boolean true)]) := by
  unfold AnimatorEngine.render_frame
  rw [hd, hq, hp, hw, hdoc, hc, hh, hs, ht]
  rfl

/-- Witness for C6: a concrete initialized engine, a host where every
external step succeeds, and the 640 by 480 context at time 2. -/
theorem c6_render_frame_metadata_witness :
    AnimatorEngine.render_frame engine_init host_ok ctx0 =
      Except.ok (JsValue.obj
        [("width", JsValue.num (F64.num (ctx0.width : ℚ))),
         ("height", JsValue.num (F64.num (ctx0.height : ℚ))),
         ("timestamp", JsValue.num ctx0.time),
         ("rendered", JsValue.boolean true)]) :=
  c6_render_frame_metadata engine_init host_ok ctx0
    { handle := 0 } { handle := 0 } { handle := 0 }
    rfl rfl rfl rfl rfl rfl rfl rfl rfl

/-- C7: `evaluate_scene` is deterministic — its output is a function of the
stored scene graph and the query time alone, so any two calls with the same
graph and time produce identical output. -/
theorem c7_evaluate_scene_deterministic (e1 e2 : AnimatorEngine) (t : F64)
    (h : e1.scene_graph = e2.scene_graph) :
    (AnimatorEngine.evaluate_scene e1 t).1 = (AnimatorEngine.evaluate_scene e2 t).1 := by
  rw [evaluate_scene_closed_form, evaluate_scene_closed_form, h]

/-- Witness for C7: two engines with the same one-node graph but different
backend states evaluate to the same output at time 1. -/
theorem c7_evaluate_scene_deterministic_witness :
    engine_one.scene_graph = engine_init.scene_graph ∧
    (AnimatorEngine.evaluate_scene engine_one (F64.num 1)).1 =
      (AnimatorEngine.evaluate_scene engine_init (F64.num 1)).1 :=
  ⟨rfl, c7_evaluate_scene_deterministic engine_one engine_init (F64.num 1) rfl⟩

/-- C8: `evaluate_scene` never mutates the engine: the whole engine state,
and in particular the stored scene graph, is unchanged by the call. -/
theorem c8_evaluate_scene_no_mutation (e : AnimatorEngine) (t : F64) :
    (AnimatorEngine.evaluate_scene e t).2 = e ∧
    (AnimatorEngine.evaluate_scene e t).2.scene_graph = e.scene_graph := by
  rw [evaluate_scene_closed_form]
  exact ⟨rfl, rfl⟩

/-- C9: `evaluate_scene` needs no backend: it succeeds on every engine
state (so never fails with the backend-not-ready error), and its output is
unchanged when every backend resource is stripped from the engine. -/
theorem c9_evaluate_scene_backend_free (e : AnimatorEngine) (t : F64) :
    (∃ v, (AnimatorEngine.evaluate_scene e t).1 = Except.ok v) ∧
    (AnimatorEngine.evaluate_scene e t).1 =
      (AnimatorEngine.evaluate_scene
        { scene_graph := e.scene_graph, gpu_device := none, gpu_queue := none,
          render_pipeline := none, shader_modules := [] } t).1 := by
  refine ⟨⟨_, congrArg Prod.fst (evaluate_scene_closed_form e t)⟩, ?_⟩
  rw [evaluate_scene_closed_form, evaluate_scene_closed_form]

/-- C10: per-node evaluation is the identity, so `evaluate_scene` returns
exactly the stored scene graph, serialized in order, with `node_count`
equal to its length (the u32 cast is lossless below 2^32, which the wasm32
usize guarantees). -/
theorem c10_evaluate_scene_is_identity_snapshot (e : AnimatorEngine) (t : F64)
    (h : e.scene_graph.length < 2 ^ 32) :
    (AnimatorEngine.evaluate_scene e t).1 =
      Except.ok (JsValue.obj
        [("time", JsValue.num t),
         ("node_count", JsValue.num (F64.num (e.scene_graph.length : ℚ))),
         ("nodes", JsValue.arr (e.scene_graph.map serialize_scene_node))]) := by
  rw [evaluate_scene_closed_form, Nat.mod_eq_of_lt h]

/-- Witness for C10: the one-node engine evaluated at time 3. -/
theorem c10_evaluate_scene_is_identity_snapshot_witness :
    engine_one.scene_graph.length < 2 ^ 32 ∧
    (AnimatorEngine.evaluate_scene engine_one (F64.num 3)).1 =
      Except.ok (JsValue.obj
        [("time", JsValue.num (F64.num 3)),
         ("node_count", JsValue.num (F64.num (engine_one.scene_graph.length : ℚ))),
         ("nodes", JsValue.arr (engine_one.scene_graph.map serialize_scene_node))]) :=
  ⟨by decide,
   c10_evaluate_scene_is_identity_snapshot engine_one (F64.num 3) (by decide)⟩
